import Mathlib

/-
Verification development for the jamboree animation scripts
(src/script.js, src/jamboree.js, src/unnamed/part_000).

The JavaScript is shallowly embedded: each stateful subsystem becomes a
Lean state record with explicit step functions mirroring the source line
by line; JS numbers are modelled as rationals, `undefined` as `Option`,
and DOM/GSAP side effects as fields of the state (attribute values,
timeline contents, construction counters).
-/

namespace Jamboree

/-! ## Capability detector (src/script.js lines 27-45)

`CONFIG.mobile.isLowEnd` is computed as
`navigator.hardwareConcurrency <= 4`.  `navigator.hardwareConcurrency`
may be absent (`undefined`); in JavaScript `undefined <= 4` coerces
`undefined` to `NaN` and every comparison involving `NaN` is `false`.
We model a possibly-absent JS number as `Option ℚ` and embed that
comparison semantics directly. -/

/-- JS evaluation of `x <= y` where `x` may be `undefined`
(`undefined` becomes `NaN`, and `NaN <= y` is `false`). -/
def jsLe (x : Option ℚ) (y : ℚ) : Bool :=
  match x with
  | none => false
  | some v => decide (v ≤ y)

/-- Embedding of `CONFIG.mobile.isLowEnd = navigator.hardwareConcurrency <= 4`
(src/script.js line 30). -/
def configIsLowEnd (hardwareConcurrency : Option ℚ) : Bool :=
  jsLe hardwareConcurrency 4

/-- Capability descriptor fields consumed by the animation helpers
(src/script.js lines 27-31). -/
structure Caps where
  isLowEnd : Bool
  reducedMotion : Bool
  deriving DecidableEq, Repr

/-- Embedding of `utils.isLowEndDevice = () => CONFIG.mobile.isLowEnd ||
CONFIG.mobile.reducedMotion` (src/script.js line 45). -/
def isLowEndDevice (c : Caps) : Bool :=
  c.isLowEnd || c.reducedMotion

/-- Capability detection (src/script.js lines 27-45): total function of the
ambient environment, raising no error. -/
def detectCaps (hardwareConcurrency : Option ℚ) (reducedMotion : Bool) : Caps :=
  { isLowEnd := configIsLowEnd hardwareConcurrency
    reducedMotion := reducedMotion }

/-! ## RAF throttle (src/script.js lines 77-94)

`utils.rafThrottle(callback, fps)` keeps one `requestId` slot: a call
schedules a `requestAnimationFrame` callback capturing the arguments of
that call only when `requestId === null`; later calls while a frame is
pending are discarded entirely.  When the frame fires at `currentTime`,
the callback runs only if `currentTime - lastTime >= 1000 / fps`, and
`lastTime` is updated to `currentTime` on execution.

The state models the closure variables: `pending` is the list of
scheduled-but-not-fired frame callbacks together with the arguments they
captured (`requestId === null` iff `pending = []`), `lastTime` the
timestamp of the last executed call, and `execs` the log of executed
calls (argument, execution timestamp), oldest first. -/

structure RafThrottleState (α : Type) where
  pending : List α
  lastTime : ℚ
  execs : List (α × ℚ)
  deriving DecidableEq, Repr

/-- Initial closure state of a wrapped function
(`requestId = null`, `lastTime = 0`). -/
def rafThrottleInit (α : Type) : RafThrottleState α :=
  { pending := [], lastTime := 0, execs := [] }

/-- Invoking the wrapped function with `args`: schedules a frame callback
capturing `args` only when none is pending (src/script.js lines 83-92);
otherwise the invocation is discarded. -/
def rafThrottleCall (st : RafThrottleState α) (args : α) : RafThrottleState α :=
  if st.pending.isEmpty then { st with pending := [args] } else st

/-- One animation frame at timestamp `t`: every scheduled callback fires,
each running the throttled body (src/script.js lines 85-91), and the
`requestId` slot is reset. -/
def rafThrottleFrame (fps : ℚ) (st : RafThrottleState α) (t : ℚ) : RafThrottleState α :=
  st.pending.foldl
    (fun acc args =>
      if 1000 / fps ≤ t - acc.lastTime then
        { acc with execs := acc.execs ++ [(args, t)], lastTime := t }
      else acc)
    { st with pending := [] }

/-- External events seen by a wrapped function: an invocation with
arguments, or an animation frame at a timestamp. -/
inductive ThrottleEvent (α : Type) where
  | call (args : α)
  | frame (t : ℚ)
  deriving DecidableEq, Repr

/-- Step of the throttle state machine. -/
def rafThrottleStep (fps : ℚ) (st : RafThrottleState α) :
    ThrottleEvent α → RafThrottleState α
  | .call args => rafThrottleCall st args
  | .frame t => rafThrottleFrame fps st t

/-- Run of the wrapped function over an event trace, from the initial
closure state. -/
def rafThrottleRun (fps : ℚ) (events : List (ThrottleEvent α)) : RafThrottleState α :=
  events.foldl (rafThrottleStep fps) (rafThrottleInit α)

/-- Minimum spacing predicate: consecutive timestamps differ by at least
`d`. -/
def Spaced (d : ℚ) : List ℚ → Prop
  | [] => True
  | [_] => True
  | a :: b :: rest => d ≤ b - a ∧ Spaced d (b :: rest)

instance instDecidableSpaced (d : ℚ) : ∀ ts : List ℚ, Decidable (Spaced d ts)
  | [] => isTrue trivial
  | [_] => isTrue trivial
  | a :: b :: rest =>
    match instDecidableSpaced d (b :: rest) with
    | isTrue h =>
      if hd : d ≤ b - a then isTrue ⟨hd, h⟩ else isFalse (fun hc => hd hc.1)
    | isFalse h => isFalse (fun hc => h hc.2)

/-! ## Batch processor (src/script.js lines 96-111)

`utils.processBatch(items, processor, batchSize)` processes
`items.slice(index, index + batchSize)` starting at `index = 0`, adds
`batchSize` to `index`, and, while `index < items.length`, schedules the
next slice with `requestAnimationFrame`.  The first slice runs
synchronously (`if (items.length > 0) processNext()`).

`fuel` counts how many times `processNext` actually gets to run (the
synchronous first call plus granted animation frames).  The result pairs
the concatenated list of processed items with `true` when the final
`processNext` did not schedule a further frame (the run is complete). -/

def processBatchFrom (batchSize : Nat) (items : List α) :
    Nat → Nat → List α × Bool
  | _, 0 => ([], false)
  | index, fuel + 1 =>
    let batch := (items.drop index).take batchSize
    let index2 := index + batchSize
    if index2 < items.length then
      let rest := processBatchFrom batchSize items index2 fuel
      (batch ++ rest.1, rest.2)
    else
      (batch, true)

/-- Entry point of the batch processor (src/script.js line 110). -/
def processBatch (batchSize : Nat) (items : List α) (fuel : Nat) :
    List α × Bool :=
  if 0 < items.length then processBatchFrom batchSize items 0 fuel
  else ([], true)

/-- Per-frame slices of the batch processor: the list whose n-th entry is
the slice processed by the n-th run of `processNext`. -/
def processBatchChunks (batchSize : Nat) (items : List α) :
    Nat → Nat → List (List α)
  | _, 0 => []
  | index, fuel + 1 =>
    let batch := (items.drop index).take batchSize
    let index2 := index + batchSize
    if index2 < items.length then
      batch :: processBatchChunks batchSize items index2 fuel
    else
      [batch]

/-! ## Section initializer registry and cache

Sections are identified by an opaque identity modelled as `Nat`.
Timelines are identified by construction order: a state carries
`nextTimeline`, the number of `gsap.timeline()` constructions performed
so far, and a freshly constructed timeline gets the current counter
value as its identity.  A cache (`cache.animations` in src/script.js,
`animationCache` in src/jamboree.js) is an association list from section
identity to timeline identity, most recent first. -/

/-- Lookup in a section-to-timeline cache (`cache.has` and implicit
`cache.get`): the timeline id stored for `sec`, if any. -/
def lookupEntry (entries : List (Nat × Nat)) (sec : Nat) : Option Nat :=
  (entries.find? (fun p => p.1 == sec)).map (fun p => p.2)

/-- Number of cache entries held for a given section identity. -/
def countEntries (entries : List (Nat × Nat)) (sec : Nat) : Nat :=
  (entries.filter (fun p => p.1 == sec)).length

/-- Registry keys of `animationMap` (src/script.js lines 368-381). -/
def animationTriggers : List String :=
  ["hero-main", "stacked-content", "image-split", "icons-grid", "cta",
   "footer", "download", "hero-banner", "landingpage-hero", "tabs",
   "featured-testimonials", "faq"]

/-- State touched by `initIntersectionObserverAnimations`
(src/script.js lines 367-410): the `cache.animations` entries, the set
of sections currently observed by the IntersectionObserver, the set of
sections whose inline `style.visibility` has been set to `visible`, and
the timeline construction counter. -/
structure ObsState where
  animations : List (Nat × Nat)
  observed : List Nat
  visible : List Nat
  nextTimeline : Nat
  deriving DecidableEq, Repr

/-- Embedding of the IntersectionObserver callback body for one entry
(src/script.js lines 383-397).  `kindOf` gives each section's
`data-animation-trigger` value.  The handler lookup
`animationMap[trigger]` succeeds exactly when the kind is a registry
key; when it fails (`if (handler)` is falsy) nothing at all happens to
the entry. -/
def observerCallback (kindOf : Nat → String) (st : ObsState)
    (target : Nat) (isIntersecting : Bool) : ObsState :=
  if isIntersecting && (lookupEntry st.animations target).isNone then
    if kindOf target ∈ animationTriggers then
      { animations := (target, st.nextTimeline) :: st.animations
        observed := st.observed.erase target
        visible := target :: st.visible
        nextTimeline := st.nextTimeline + 1 }
    else st
  else st

/-- State touched by `setupScrollTrigger` (src/script.js lines 485-503):
`cache.animations`, sections made visible, timeline counter. -/
structure STState where
  animations : List (Nat × Nat)
  visible : List Nat
  nextTimeline : Nat
  deriving DecidableEq, Repr

/-- Embedding of `setupScrollTrigger(section, config)`
(src/script.js lines 485-503): early return when the cache already holds
the section, otherwise reveal, construct one timeline, run the handler
and insert the cache entry. -/
def setupScrollTrigger (st : STState) (sec : Nat) : STState :=
  if (lookupEntry st.animations sec).isSome then st
  else
    { animations := (sec, st.nextTimeline) :: st.animations
      visible := sec :: st.visible
      nextTimeline := st.nextTimeline + 1 }

/-- Embedding of `setupAnimation(section, config)`
(src/jamboree.js lines 274-297), which guards on `animationCache` the
same way. -/
def setupAnimation (st : STState) (sec : Nat) : STState :=
  if (lookupEntry st.animations sec).isSome then st
  else
    { animations := (sec, st.nextTimeline) :: st.animations
      visible := sec :: st.visible
      nextTimeline := st.nextTimeline + 1 }

/-! ## Cleanup (src/script.js lines 881-895, src/jamboree.js lines 586-590)

The caches `cache.animations` (script.js) and `animationCache`
(jamboree.js) are `WeakMap`s.  Per ECMA-262 (ES2015 and all later
editions), `WeakMap.prototype` provides exactly the methods
`delete`, `get`, `has`, `set` (plus the constructor); it has no `clear`
method and no `size` accessor, so `cache.animations.clear()` evaluates
`undefined(...)` and throws a `TypeError`.  We embed a method call on a
WeakMap by membership in the fixed method list. -/

/-- Method names available on `WeakMap.prototype` in ES2015+. -/
def weakMapMethods : List String := ["delete", "get", "has", "set"]

/-- Full session state visible to `cleanup` (src/script.js lines 881-895). -/
structure CleanupState where
  scrollTriggers : List Nat
  animations : List (Nat × Nat)
  timelines : List (String × Nat)
  observersConnected : List String
  domCache : List String
  globalTimelineSteps : Nat
  deriving DecidableEq, Repr

/-- Result of running a cleanup entry point: normal completion, or a
thrown exception together with the state at the moment of the throw. -/
inductive CleanupResult where
  | ok (st : CleanupState)
  | threw (err : String) (st : CleanupState)
  deriving DecidableEq, Repr

/-- Embedding of `cleanup` (src/script.js lines 881-895), statement by
statement: kill all ScrollTriggers, then `cache.animations.clear()` —
a method call on a WeakMap, which throws because `WeakMap.prototype`
has no `clear` — then (only if that did not throw) clear the timeline
cache, disconnect and clear observers, clear the DOM cache and clear
the global timeline. -/
def cleanup (st : CleanupState) : CleanupResult :=
  let st1 := { st with scrollTriggers := [] }
  if "clear" ∈ weakMapMethods then
    let st2 := { st1 with animations := [] }
    let st3 := { st2 with timelines := [] }
    let st4 := { st3 with observersConnected := [] }
    let st5 := { st4 with domCache := [] }
    .ok { st5 with globalTimelineSteps := 0 }
  else
    .threw "TypeError: cache.animations.clear is not a function" st1

/-- Embedding of `window.cleanupAnimations`
(src/jamboree.js lines 586-590): kill all ScrollTriggers, then
`animationCache.clear()` on a WeakMap. -/
def cleanupAnimations (st : CleanupState) : CleanupResult :=
  let st1 := { st with scrollTriggers := [] }
  if "clear" ∈ weakMapMethods then
    .ok { st1 with animations := [] }
  else
    .threw "TypeError: animationCache.clear is not a function" st1

/-! ## Diagnostics accessor (src/script.js lines 897-910)

`getPerformanceMetrics` reads `cache.animations.size`,
`cache.timelines.size`, `cache.observers.size` and
`utils.domCache.size`.  `Map.prototype` has a `size` accessor;
`WeakMap` (own properties and prototype) has none, so property access
`cache.animations.size` yields `undefined`. -/

/-- A JS value as observed from the metrics object: a number or
`undefined`. -/
inductive JsValue where
  | num (q : ℚ)
  | undefined
  deriving DecidableEq, Repr

/-- JS property access over an explicit own/prototype property table:
a missing property reads as `undefined`. -/
def jsGetProp (props : List (String × JsValue)) (name : String) : JsValue :=
  match props.find? (fun p => p.1 == name) with
  | some p => p.2
  | none => .undefined

/-- Data-property table of a `WeakMap` instance: empty — in particular
there is no `size` entry (ECMA-262: `WeakMap.prototype` defines only
`delete`, `get`, `has`, `set`). -/
def weakMapProps (_entries : List (Nat × Nat)) : List (String × JsValue) := []

/-- Property table of a `Map` instance as read by the metrics object:
the `size` accessor reports the number of entries. -/
def mapProps (entryCount : Nat) : List (String × JsValue) :=
  [("size", .num entryCount)]

/-- Object returned by `WebflowAnimations.getPerformanceMetrics`
(src/script.js lines 904-909). -/
structure Metrics where
  animationCount : JsValue
  timelineCount : JsValue
  observerCount : JsValue
  domCacheSize : JsValue
  deriving DecidableEq, Repr

/-- Embedding of `getPerformanceMetrics` (src/script.js lines 904-909):
each field reads the `size` property of the corresponding cache
(`cache.animations` is a WeakMap, the others are Maps). -/
def getPerformanceMetrics (st : CleanupState) : Metrics :=
  { animationCount := jsGetProp (weakMapProps st.animations) "size"
    timelineCount := jsGetProp (mapProps st.timelines.length) "size"
    observerCount := jsGetProp (mapProps st.observersConnected.length) "size"
    domCacheSize := jsGetProp (mapProps st.domCache.length) "size" }

/-! ## Expandable navigation menu (src/script.js lines 268-364)

`initMenu` creates one shared GSAP timeline `tl` for the menu, keeps a
closure flag `isOpen`, and wires a click handler
`toggleMenu = utils.rafThrottle(() => isOpen ? closeNav() : openNav(), 30)`
plus an Escape keydown handler `if (e.key === "Escape" && isOpen) closeNav()`.
`openNav`/`closeNav` set the `data-nav` attribute, toggle the
`is-opened` button class and ARIA label, and rebuild the shared timeline
after `tl.clear()`.  The state below models all the DOM facts named by
the spec, the contents of the one shared timeline, a counter of menu
timeline constructions, and the rafThrottle closure (`pending` holding
the scheduled frame callbacks, of which the guard allows at most one;
`lastTime` the timestamp of the last executed toggle; the throttle fps
is 30, so the interval is 1000/30 ms).  The model assumes the full menu
DOM is present (nav wrapper, menu button, fade targets). -/

structure MenuState where
  isOpen : Bool
  dataNav : String
  btnOpened : Bool
  ariaLabel : String
  tlContent : List String
  tlCreated : Nat
  pending : List Unit
  lastTime : ℚ
  deriving DecidableEq, Repr

/-- Steps `openNav` places on the shared timeline after `tl.clear()`
(src/script.js lines 304-331), in order. -/
def openSteps : List String :=
  ["set nav display block", "set menu xPercent 0", "fromTo button texts",
   "fromTo button icon", "fromTo overlay", "fromTo bg panels",
   "fromTo menu links", "fromTo fade targets"]

/-- Steps `closeNav` places on the shared timeline after `tl.clear()`
(src/script.js lines 342-351), in order. -/
def closeSteps : List String :=
  ["to overlay", "to menu xPercent 120", "to button texts",
   "to button icon", "set nav display none"]

/-- Embedding of `openNav` (src/script.js lines 296-332). -/
def openNav (st : MenuState) : MenuState :=
  if st.isOpen then st
  else
    { st with
      isOpen := true
      dataNav := "open"
      btnOpened := true
      ariaLabel := "Close menu"
      tlContent := openSteps }

/-- Embedding of `closeNav` (src/script.js lines 334-352). -/
def closeNav (st : MenuState) : MenuState :=
  if !st.isOpen then st
  else
    { st with
      isOpen := false
      dataNav := "closed"
      btnOpened := false
      ariaLabel := "Open menu"
      tlContent := closeSteps }

/-- Body of the throttled toggle
(`() => isOpen ? closeNav() : openNav()`, src/script.js lines 292-294). -/
def toggleBody (st : MenuState) : MenuState :=
  if st.isOpen then closeNav st else openNav st

/-- External events driving the menu: a click on a toggle control at a
timestamp, an animation frame at a timestamp, an Escape keydown. -/
inductive MenuEvent where
  | click (t : ℚ)
  | frame (t : ℚ)
  | escape
  deriving DecidableEq, Repr

/-- Step of the menu machine.  A click runs the rafThrottle wrapper
(schedule one frame callback only if none is pending, else drop the
invocation); an animation frame fires the scheduled callbacks, each
running the toggle body only when at least 1000/30 ms have passed since
the last executed toggle; Escape closes the menu only when it is open
(src/script.js lines 292-294 and 355-361). -/
def menuStep (st : MenuState) : MenuEvent → MenuState
  | .click _ =>
    if st.pending.isEmpty then { st with pending := [()] } else st
  | .frame t =>
    st.pending.foldl
      (fun acc _ =>
        if 1000 / 30 ≤ t - acc.lastTime then
          { toggleBody acc with lastTime := t }
        else acc)
      { st with pending := [] }
  | .escape => if st.isOpen then closeNav st else st

/-- State established by `initMenu` (src/script.js lines 268-364),
assuming the page starts with the menu closed: one shared timeline has
been constructed (empty so far), `isOpen = false`, the initial ARIA
label is set, and the throttle closure is fresh. -/
def menuInit : MenuState :=
  { isOpen := false
    dataNav := "closed"
    btnOpened := false
    ariaLabel := "Open menu"
    tlContent := []
    tlCreated := 1
    pending := []
    lastTime := 0 }

/-- Run of the menu machine over an event trace. -/
def menuRun (events : List MenuEvent) : MenuState :=
  events.foldl menuStep menuInit

/-! ## Text reveal helpers (src/script.js lines 505-579)

`animationHelpers.splitHeading` and `animationHelpers.splitParagraph`
either append a single fade step to the timeline (low-end / reduced
motion path) or invoke `SplitText.create` and append a staggered
fragment step.  The embedding returns the list of steps appended to the
timeline together with the number of `SplitText.create` invocations. -/

/-- One timeline step appended by a text-reveal helper. -/
inductive RevealStep where
  | fadeIn (delay : ℚ)
  | charsReveal (delay : ℚ)
  | wordsReveal (delay : ℚ)
  | linesReveal (delay : ℚ)
  deriving DecidableEq, Repr

/-- Embedding of `animationHelpers.splitHeading(element, timeline, delay)`
(src/script.js lines 507-550).  `element` is `none` when the selector
found nothing; `textLen` is `element.textContent.length`; `cached` says
whether `cache.splitTexts` already holds a split for the element.
Returns (steps appended, number of `SplitText.create` calls). -/
def splitHeading (c : Caps) (element : Option Nat) (textLen : Nat)
    (cached : Bool) (delay : ℚ) : List RevealStep × Nat :=
  match element with
  | none => ([], 0)
  | some _ =>
    if isLowEndDevice c then ([.fadeIn delay], 0)
    else if cached then ([.charsReveal delay], 0)
    else if 100 < textLen then ([.wordsReveal delay], 1)
    else ([.charsReveal delay], 1)

/-- Embedding of `animationHelpers.splitParagraph(elements, timeline, delay)`
(src/script.js lines 552-579).  `elements` is the list of matched
paragraph elements (the early return covers `null` and empty). -/
def splitParagraph (c : Caps) (elements : List Nat) (delay : ℚ) :
    List RevealStep × Nat :=
  match elements with
  | [] => ([], 0)
  | _ :: _ =>
    if isLowEndDevice c then ([.fadeIn delay], 0)
    else ([.linesReveal delay], 1)

/-- Timestamps of the executed calls of a throttled function, oldest
first. -/
def execTimes (st : RafThrottleState α) : List ℚ :=
  st.execs.map (fun e => e.2)

/-- Invariant of the rafThrottle closure: at most one frame callback is
pending, executed calls are spaced by at least the interval, and
`lastTime` is the timestamp of the last executed call (0 before any). -/
def ThrottleInv (interval : ℚ) (st : RafThrottleState α) : Prop :=
  st.pending.length ≤ 1 ∧ Spaced interval (execTimes st) ∧
    ∀ l, (execTimes st).getLast? = some l → l = st.lastTime

/-! ## Helper lemmas -/

theorem lookupEntry_cons_self (es : List (Nat × Nat)) (sec v : Nat) :
    lookupEntry ((sec, v) :: es) sec = some v := by
  simp [lookupEntry]

theorem countEntries_of_lookup_none {es : List (Nat × Nat)} {sec : Nat}
    (h : lookupEntry es sec = none) : countEntries es sec = 0 := by
  unfold lookupEntry at h
  rw [Option.map_eq_none'] at h
  rw [List.find?_eq_none] at h
  unfold countEntries
  rw [List.filter_eq_nil_iff.mpr h]
  rfl

theorem countEntries_cons_self (es : List (Nat × Nat)) (sec v : Nat) :
    countEntries ((sec, v) :: es) sec = countEntries es sec + 1 := by
  simp [countEntries, List.filter_cons]

theorem setupScrollTrigger_of_none {s : STState} {sc : Nat}
    (h : lookupEntry s.animations sc = none) :
    setupScrollTrigger s sc =
      { animations := (sc, s.nextTimeline) :: s.animations,
        visible := sc :: s.visible, nextTimeline := s.nextTimeline + 1 } := by
  unfold setupScrollTrigger
  rw [h]
  rfl

theorem setupScrollTrigger_of_some {s : STState} {sc : Nat} (v : Nat)
    (h : lookupEntry s.animations sc = some v) : setupScrollTrigger s sc = s := by
  unfold setupScrollTrigger
  rw [h]
  rfl

theorem observerCallback_of_none_mem {k : Nat → String} {s : ObsState} {sc : Nat}
    (h : lookupEntry s.animations sc = none) (hk : k sc ∈ animationTriggers) :
    observerCallback k s sc true =
      { animations := (sc, s.nextTimeline) :: s.animations,
        observed := s.observed.erase sc, visible := sc :: s.visible,
        nextTimeline := s.nextTimeline + 1 } := by
  unfold observerCallback
  rw [h]
  simp [hk]

theorem observerCallback_of_some {k : Nat → String} {s : ObsState} {sc : Nat} (v : Nat)
    (h : lookupEntry s.animations sc = some v) (b : Bool) :
    observerCallback k s sc b = s := by
  unfold observerCallback
  rw [h]
  simp

theorem spaced_concat {d : ℚ} : ∀ {ts : List ℚ} {t : ℚ}, Spaced d ts →
    (∀ l, ts.getLast? = some l → d ≤ t - l) → Spaced d (ts ++ [t])
  | [], t, _, _ => trivial
  | [a], t, _, hlast => ⟨hlast a rfl, trivial⟩
  | a :: b :: rest, t, h, hlast => by
    refine ⟨h.1, ?_⟩
    exact spaced_concat h.2 (fun l hl => hlast l (by rw [List.getLast?_cons_cons]; exact hl))

theorem throttleCall_inv {interval : ℚ} {st : RafThrottleState α}
    (h : ThrottleInv interval st) (args : α) :
    ThrottleInv interval (rafThrottleCall st args) := by
  unfold rafThrottleCall
  by_cases he : st.pending.isEmpty
  · rw [if_pos he]
    exact ⟨by simp, h.2.1, h.2.2⟩
  · rw [if_neg he]
    exact h

theorem throttleFrame_inv {interval fps : ℚ} {st : RafThrottleState α}
    (hfps : interval = 1000 / fps)
    (h : ThrottleInv interval st) (t : ℚ) :
    ThrottleInv interval (rafThrottleFrame fps st t) := by
  rcases h with ⟨hp, hs, hl⟩
  rcases hpe : st.pending with _ | ⟨a, rest⟩
  · unfold rafThrottleFrame
    rw [hpe]
    exact ⟨by simp, hs, hl⟩
  · have hrest : rest = [] := by
      rw [hpe] at hp
      simpa using hp
    subst hrest
    unfold rafThrottleFrame
    rw [hpe]
    simp only [List.foldl]
    by_cases hc : 1000 / fps ≤ t - st.lastTime
    · rw [if_pos hc]
      have het : execTimes { pending := ([] : List α), lastTime := t, execs := st.execs ++ [(a, t)] } = execTimes st ++ [t] := by
        simp [execTimes]
      refine ⟨by simp, ?_, ?_⟩
      · show Spaced interval _
        rw [het]
        refine spaced_concat hs (fun l hll => ?_)
        rw [hl l hll, hfps]
        exact hc
      · intro l hll
        rw [het, List.getLast?_concat] at hll
        exact (Option.some_inj.mp hll).symm
    · rw [if_neg hc]
      exact ⟨by simp, hs, hl⟩

theorem throttleRun_inv (fps : ℚ) (events : List (ThrottleEvent α)) :
    ThrottleInv (1000 / fps) (rafThrottleRun fps events) := by
  have hstep : ∀ (st : RafThrottleState α), ThrottleInv (1000 / fps) st →
      ∀ evs : List (ThrottleEvent α),
        ThrottleInv (1000 / fps) (evs.foldl (rafThrottleStep fps) st) := by
    intro st hst evs
    induction evs generalizing st with
    | nil => exact hst
    | cons e evs ih =>
      refine ih _ ?_
      cases e with
      | call args => exact throttleCall_inv hst args
      | frame t => exact throttleFrame_inv rfl hst t
  refine hstep _ ⟨by simp [rafThrottleInit], by trivial, ?_⟩ events
  intro l hl
  simp [execTimes, rafThrottleInit] at hl

/-! ## Claim theorems -/

/-- C4, counterexample: the spec says a throttled function coalesces
calls into one pending invocation that "runs with the most recent
arguments"; in the code the pending rAF callback captured the FIRST
call's arguments and later calls are discarded, so after calls with
arguments 1 then 2 inside one frame, the executed call uses argument 1,
not the most recent argument 2. -/
theorem rafThrottle_most_recent_args_counterexample :
    (rafThrottleRun 60 [.call 1, .call (2 : ℕ), .frame 100]).execs = [(1, 100)] ∧
    (rafThrottleRun 60 [.call 1, .call (2 : ℕ), .frame 100]).execs ≠ [(2, 100)] := by
  have h : (rafThrottleRun 60 [.call 1, .call (2 : ℕ), .frame 100]).execs = [(1, 100)] := by
    norm_num [rafThrottleRun, rafThrottleStep, rafThrottleCall, rafThrottleFrame,
      rafThrottleInit, List.foldl]
  refine ⟨h, ?_⟩
  rw [h]
  simp

/-- C4, amended: a wrapped function keeps at most one pending invocation
at a time; the pending invocation runs with the arguments of the first
call of the coalescing window (an invocation arriving while one is
pending is discarded, leaving the closure state unchanged); executed
calls are spaced at least 1000/maxFps milliseconds apart, measured from
the last executed call's timestamp. -/
theorem rafThrottle_amended (fps : ℚ) (events : List (ThrottleEvent α)) :
    (rafThrottleRun fps events).pending.length ≤ 1 ∧
    Spaced (1000 / fps) (execTimes (rafThrottleRun fps events)) ∧
    (∀ (st : RafThrottleState α) (args : α),
      st.pending.isEmpty = false → rafThrottleCall st args = st) := by
  obtain ⟨h1, h2, _⟩ := throttleRun_inv fps events
  refine ⟨h1, h2, fun st args hne => ?_⟩
  unfold rafThrottleCall
  rw [hne]
  simp

/-- C4, witness: the amended theorem applied to fps = 60 and a concrete
trace, and to a concrete closure state with a pending invocation. -/
theorem rafThrottle_amended_witness :
    (rafThrottleRun 60 [.call (5 : ℕ), .frame 40, .call 6, .frame 50]).pending.length ≤ 1 ∧
    Spaced (1000 / 60)
      (execTimes (rafThrottleRun 60 [.call (5 : ℕ), .frame 40, .call 6, .frame 50])) ∧
    rafThrottleCall { pending := [9], lastTime := 0, execs := [] } (7 : ℕ) =
      { pending := [9], lastTime := 0, execs := [] } :=
  ⟨(rafThrottle_amended 60 [.call 5, .frame 40, .call 6, .frame 50]).1,
   (rafThrottle_amended 60 [.call 5, .frame 40, .call 6, .frame 50]).2.1,
   (rafThrottle_amended 60 ([] : List (ThrottleEvent ℕ))).2.2 _ 7 (by decide)⟩

/-- C8: the capability detector treats an absent core-count API as "not
low-end": with `navigator.hardwareConcurrency` undefined, the JS
comparison `undefined <= 4` is false, so `CONFIG.mobile.isLowEnd` is
`false`; absent reduced motion, `utils.isLowEndDevice()` is also
`false`, so the session does not take the low-end degraded path, and
detection is a total function (no error). -/
theorem absent_core_count_not_low_end :
    configIsLowEnd none = false ∧
    detectCaps none false = { isLowEnd := false, reducedMotion := false } ∧
    isLowEndDevice (detectCaps none false) = false :=
  ⟨rfl, rfl, rfl⟩

/-- C7: with `reducedMotion = true` in the capability descriptor,
`utils.isLowEndDevice()` is true, so both text-reveal helpers take the
early branch: they append exactly the single-element fade step and
`SplitText.create` is never invoked (0 split invocations), for the
heading variant (any element, any text length, cached or not) and the
paragraph variant (any non-empty element list); on an absent element
neither appends a step nor splits. -/
theorem reduced_motion_degrades_to_fade (c : Caps) (h : c.reducedMotion = true) :
    (∀ (el textLen : Nat) (cached : Bool) (delay : ℚ),
      splitHeading c (some el) textLen cached delay = ([.fadeIn delay], 0)) ∧
    (∀ (e : Nat) (es : List Nat) (delay : ℚ),
      splitParagraph c (e :: es) delay = ([.fadeIn delay], 0)) ∧
    (∀ (element : Option Nat) (textLen : Nat) (cached : Bool) (delay : ℚ),
      (splitHeading c element textLen cached delay).2 = 0) ∧
    (∀ (elements : List Nat) (delay : ℚ), (splitParagraph c elements delay).2 = 0) := by
  have hl : isLowEndDevice c = true := by
    simp [isLowEndDevice, h]
  refine ⟨?_, ?_, ?_, ?_⟩
  · intro el textLen cached delay
    simp [splitHeading, hl]
  · intro e es delay
    simp [splitParagraph, hl]
  · intro element textLen cached delay
    cases element with
    | none => rfl
    | some el => simp [splitHeading, hl]
  · intro elements delay
    cases elements with
    | nil => rfl
    | cons e es => simp [splitParagraph, hl]

/-- C7, witness: the theorem applied to the descriptor with
`reducedMotion = true` and a concrete heading and paragraph call. -/
theorem reduced_motion_degrades_to_fade_witness :
    Caps.reducedMotion { isLowEnd := false, reducedMotion := true } = true ∧
    splitHeading { isLowEnd := false, reducedMotion := true } (some 0) 42 false 1 =
      ([.fadeIn 1], 0) ∧
    splitParagraph { isLowEnd := false, reducedMotion := true } [0, 1] 2 =
      ([.fadeIn 2], 0) :=
  ⟨rfl,
   (reduced_motion_degrades_to_fade _ rfl).1 0 42 false 1,
   (reduced_motion_degrades_to_fade _ rfl).2.1 0 [1] 2⟩

/-- C9: evaluation of `getPerformanceMetrics` at a session state holding
two cached animations, one timeline and one observer.  The claim says
every field is a number equal to the cache's entry count; in the code
`cache.animations` is a WeakMap, which has no `size` property, so
`animationCount` is `undefined` (not a number), while `timelineCount`
and `observerCount` are correct numbers.  The field name and the spec
show a count was intended: the code is a slip. -/
theorem metrics_animation_count_undefined :
    getPerformanceMetrics
      { scrollTriggers := [], animations := [(1, 0), (2, 1)],
        timelines := [("menu", 0)], observersConnected := ["main"],
        domCache := ["doc-.nav"], globalTimelineSteps := 0 } =
      { animationCount := .undefined, timelineCount := .num 1,
        observerCount := .num 1, domCacheSize := .num 1 } := by
  rfl

/-- C3: both cleanup entry points call `.clear()` on a WeakMap
(`cache.animations.clear()` in src/script.js line 887,
`animationCache.clear()` in src/jamboree.js line 589); `WeakMap.prototype`
has no `clear` method, so cleanup throws a TypeError, and in script.js
the statements after the throw never run: at the moment of the throw the
observer is still connected and the timeline cache still holds its
entry.  This contradicts the claim (and the code's own comments "Clear
all caches" / "Kill all timelines"). -/
theorem cleanup_throws_typeerror :
    cleanup
      { scrollTriggers := [7], animations := [(1, 0)],
        timelines := [("menu", 0)], observersConnected := ["main"],
        domCache := ["doc-.nav"], globalTimelineSteps := 3 } =
      .threw "TypeError: cache.animations.clear is not a function"
        { scrollTriggers := [], animations := [(1, 0)],
          timelines := [("menu", 0)], observersConnected := ["main"],
          domCache := ["doc-.nav"], globalTimelineSteps := 3 } ∧
    cleanupAnimations
      { scrollTriggers := [7], animations := [(1, 0)],
        timelines := [], observersConnected := [],
        domCache := [], globalTimelineSteps := 0 } =
      .threw "TypeError: animationCache.clear is not a function"
        { scrollTriggers := [], animations := [(1, 0)],
          timelines := [], observersConnected := [],
          domCache := [], globalTimelineSteps := 0 } :=
  ⟨rfl, rfl⟩

/-- C2, counterexample: a section (id 7) whose
`data-animation-trigger` kind ("marquee") is not a registry key, while
observed and intersecting: the observer callback leaves the state fully
unchanged — in particular the section's visibility is NOT set to
visible and the section is NOT deregistered from the observer,
contradicting the claim that initialization "still sets the section's
visibility style to visible ... and deregisters the section from the
watcher". -/
theorem unknown_kind_counterexample :
    observerCallback (fun _ => "marquee")
      { animations := [], observed := [7], visible := [], nextTimeline := 0 } 7 true =
      { animations := [], observed := [7], visible := [], nextTimeline := 0 } ∧
    7 ∉ (observerCallback (fun _ => "marquee")
      { animations := [], observed := [7], visible := [], nextTimeline := 0 } 7 true).visible ∧
    7 ∈ (observerCallback (fun _ => "marquee")
      { animations := [], observed := [7], visible := [], nextTimeline := 0 } 7 true).observed := by
  refine ⟨?_, ?_, ?_⟩ <;> decide

/-- C2, amended: for a section whose kind is not in the handler
registry, the observer callback is a non-fatal no-op that never throws
(the embedding is a total function returning the state unchanged), but
it does NOT set the section's visibility style and the section remains
registered with the watcher; no cache entry and no timeline is
created. -/
theorem unknown_kind_noop (kindOf : Nat → String) (st : ObsState)
    (sec : Nat) (isIntersecting : Bool)
    (h : kindOf sec ∉ animationTriggers) :
    observerCallback kindOf st sec isIntersecting = st := by
  unfold observerCallback
  by_cases hc : (isIntersecting && (lookupEntry st.animations sec).isNone) = true
  · rw [if_pos hc, if_neg h]
  · rw [if_neg hc]

/-- C2, witness: the amended theorem applied to a concrete unknown kind
and state. -/
theorem unknown_kind_noop_witness :
    "marquee" ∉ animationTriggers ∧
    observerCallback (fun _ => "marquee")
      { animations := [], observed := [3], visible := [], nextTimeline := 0 } 3 true =
      { animations := [], observed := [3], visible := [], nextTimeline := 0 } :=
  ⟨by decide, unknown_kind_noop (fun _ => "marquee") _ 3 true (by decide)⟩

/-- C1: initialization is idempotent on every path.  For
`setupScrollTrigger` (src/script.js), `setupAnimation` (src/jamboree.js)
and the observer callback (src/script.js, for a section whose kind is a
registry key), starting from a state with no cache entry for the
section: a second initialization attempt returns the state of the first
unchanged, after both attempts the cache holds exactly one entry for the
section, exactly one timeline was constructed across both attempts, and
the timeline stored by the first attempt is the one the cache reports
after the second. -/
theorem initialization_idempotent
    (st stj : STState) (os : ObsState) (sec secj seco : Nat) (kindOf : Nat → String)
    (h1 : lookupEntry st.animations sec = none)
    (h2 : lookupEntry stj.animations secj = none)
    (h3 : lookupEntry os.animations seco = none)
    (h4 : kindOf seco ∈ animationTriggers) :
    (setupScrollTrigger (setupScrollTrigger st sec) sec = setupScrollTrigger st sec ∧
      countEntries (setupScrollTrigger (setupScrollTrigger st sec) sec).animations sec = 1 ∧
      (setupScrollTrigger (setupScrollTrigger st sec) sec).nextTimeline = st.nextTimeline + 1 ∧
      lookupEntry (setupScrollTrigger st sec).animations sec = some st.nextTimeline ∧
      lookupEntry (setupScrollTrigger (setupScrollTrigger st sec) sec).animations sec =
        some st.nextTimeline) ∧
    (setupAnimation (setupAnimation stj secj) secj = setupAnimation stj secj ∧
      countEntries (setupAnimation (setupAnimation stj secj) secj).animations secj = 1 ∧
      (setupAnimation (setupAnimation stj secj) secj).nextTimeline = stj.nextTimeline + 1 ∧
      lookupEntry (setupAnimation stj secj).animations secj = some stj.nextTimeline ∧
      lookupEntry (setupAnimation (setupAnimation stj secj) secj).animations secj =
        some stj.nextTimeline) ∧
    (observerCallback kindOf (observerCallback kindOf os seco true) seco true =
        observerCallback kindOf os seco true ∧
      countEntries (observerCallback kindOf (observerCallback kindOf os seco true) seco
        true).animations seco = 1 ∧
      (observerCallback kindOf (observerCallback kindOf os seco true) seco
        true).nextTimeline = os.nextTimeline + 1 ∧
      lookupEntry (observerCallback kindOf os seco true).animations seco =
        some os.nextTimeline ∧
      lookupEntry (observerCallback kindOf (observerCallback kindOf os seco true) seco
        true).animations seco = some os.nextTimeline) := by
  have key : ∀ (s : STState) (sc : Nat), lookupEntry s.animations sc = none →
      setupScrollTrigger (setupScrollTrigger s sc) sc = setupScrollTrigger s sc ∧
      countEntries (setupScrollTrigger (setupScrollTrigger s sc) sc).animations sc = 1 ∧
      (setupScrollTrigger (setupScrollTrigger s sc) sc).nextTimeline = s.nextTimeline + 1 ∧
      lookupEntry (setupScrollTrigger s sc).animations sc = some s.nextTimeline ∧
      lookupEntry (setupScrollTrigger (setupScrollTrigger s sc) sc).animations sc =
        some s.nextTimeline := by
    intro s sc h
    have hA := setupScrollTrigger_of_none h
    have hlook : lookupEntry (setupScrollTrigger s sc).animations sc = some s.nextTimeline := by
      rw [hA]
      exact lookupEntry_cons_self _ _ _
    have hA2 : setupScrollTrigger (setupScrollTrigger s sc) sc = setupScrollTrigger s sc :=
      setupScrollTrigger_of_some s.nextTimeline hlook
    refine ⟨hA2, ?_, ?_, hlook, by rw [hA2]; exact hlook⟩
    · rw [hA2, hA]
      rw [countEntries_cons_self, countEntries_of_lookup_none h]
    · rw [hA2, hA]
  have hsame : setupAnimation = setupScrollTrigger := rfl
  refine ⟨key st sec h1, by rw [hsame]; exact key stj secj h2, ?_⟩
  have hB := observerCallback_of_none_mem h3 h4
  have hlookB : lookupEntry (observerCallback kindOf os seco true).animations seco =
      some os.nextTimeline := by
    rw [hB]
    exact lookupEntry_cons_self _ _ _
  have hB2 : observerCallback kindOf (observerCallback kindOf os seco true) seco true =
      observerCallback kindOf os seco true :=
    observerCallback_of_some os.nextTimeline hlookB true
  refine ⟨hB2, ?_, ?_, hlookB, by rw [hB2]; exact hlookB⟩
  · rw [hB2, hB]
    rw [countEntries_cons_self, countEntries_of_lookup_none h3]
  · rw [hB2, hB]

/-- C1, witness: the theorem applied to empty caches, section ids 5 and
6, and the registered kind "faq". -/
theorem initialization_idempotent_witness :
    lookupEntry ([] : List (Nat × Nat)) 5 = none ∧
    "faq" ∈ animationTriggers ∧
    countEntries (setupScrollTrigger (setupScrollTrigger
      { animations := [], visible := [], nextTimeline := 0 } 5) 5).animations 5 = 1 ∧
    lookupEntry (observerCallback (fun _ => "faq")
      { animations := [], observed := [6], visible := [], nextTimeline := 0 }
      6 true).animations 6 = some 0 :=
  ⟨rfl, by decide,
   (initialization_idempotent
     { animations := [], visible := [], nextTimeline := 0 }
     { animations := [], visible := [], nextTimeline := 0 }
     { animations := [], observed := [6], visible := [], nextTimeline := 0 }
     5 5 6 (fun _ => "faq") rfl rfl rfl (by decide)).1.2.1,
   (initialization_idempotent
     { animations := [], visible := [], nextTimeline := 0 }
     { animations := [], visible := [], nextTimeline := 0 }
     { animations := [], observed := [6], visible := [], nextTimeline := 0 }
     5 5 6 (fun _ => "faq") rfl rfl rfl (by decide)).2.2.2.2.2.1⟩

theorem processBatchFrom_complete {batchSize : Nat} (_hB : 0 < batchSize) (items : List α) :
    ∀ (fuel index : Nat), index < items.length →
      items.length ≤ index + fuel * batchSize →
      processBatchFrom batchSize items index fuel = (items.drop index, true) := by
  intro fuel
  induction fuel with
  | zero =>
    intro index hlt hle
    simp at hle
    omega
  | succ fuel ih =>
    intro index hlt hle
    by_cases hc : index + batchSize < items.length
    · have hrec := ih (index + batchSize) hc (by rw [Nat.succ_mul] at hle; omega)
      simp only [processBatchFrom, hrec]
      rw [if_pos hc]
      refine Prod.ext ?_ rfl
      show (items.drop index).take batchSize ++ items.drop (index + batchSize) = items.drop index
      rw [← List.drop_drop]
      exact List.take_append_drop _ _
    · simp only [processBatchFrom]
      rw [if_neg hc]
      have hlen : (items.drop index).length ≤ batchSize := by
        rw [List.length_drop]
        omega
      rw [List.take_of_length_le hlen]

theorem processBatchChunks_spec {batchSize : Nat} (_hB : 0 < batchSize) (items : List α) :
    ∀ (fuel index : Nat), index < items.length →
      items.length ≤ index + fuel * batchSize →
      (processBatchChunks batchSize items index fuel).flatten = items.drop index ∧
      processBatchChunks batchSize items index fuel ≠ [] ∧
      (∀ c ∈ processBatchChunks batchSize items index fuel, c.length ≤ batchSize) ∧
      (∀ c ∈ (processBatchChunks batchSize items index fuel).dropLast,
        c.length = batchSize) := by
  intro fuel
  induction fuel with
  | zero =>
    intro index hlt hle
    simp at hle
    omega
  | succ fuel ih =>
    intro index hlt hle
    by_cases hc : index + batchSize < items.length
    · obtain ⟨hj, hne, hlen, hdl⟩ := ih (index + batchSize) hc
        (by rw [Nat.succ_mul] at hle; omega)
      have hcons : processBatchChunks batchSize items index (fuel + 1) =
          (items.drop index).take batchSize ::
            processBatchChunks batchSize items (index + batchSize) fuel := by
        simp only [processBatchChunks]
        rw [if_pos hc]
      have hbatch : ((items.drop index).take batchSize).length = batchSize := by
        rw [List.length_take, List.length_drop]
        omega
      rw [hcons]
      refine ⟨?_, by simp, ?_, ?_⟩
      · rw [List.flatten_cons, hj, ← List.drop_drop]
        exact List.take_append_drop _ _
      · intro c hcm
        rcases List.mem_cons.mp hcm with hh | ht
        · rw [hh, hbatch]
        · exact hlen c ht
      · obtain ⟨c0, cs, hcc⟩ := List.exists_cons_of_ne_nil hne
        rw [hcc, List.dropLast_cons₂]
        intro c hcm
        rcases List.mem_cons.mp hcm with hh | ht
        · rw [hh, hbatch]
        · rw [← hcc] at ht
          exact hdl c ht
    · have hterm : processBatchChunks batchSize items index (fuel + 1) =
          [(items.drop index).take batchSize] := by
        simp only [processBatchChunks]
        rw [if_neg hc]
      have hlen2 : (items.drop index).length ≤ batchSize := by
        rw [List.length_drop]
        omega
      rw [hterm]
      refine ⟨?_, by simp, ?_, ?_⟩
      · simp [List.take_of_length_le hlen2]
      · intro c hcm
        rw [List.mem_singleton.mp hcm]
        exact List.length_take_le _ _
      · intro c hcm
        simp at hcm

/-- C6, counterexample: the claim quantifies over every batch size; with
batch size 0 and the one-element list, every frame processes the empty
slice and leaves the index unchanged, so even after 100 granted frames
nothing has been processed and the processor is still scheduling further
frames: the sequence is never processed in slices, and the run never
completes. -/
theorem batch_size_zero_counterexample :
    (processBatch 0 [(0 : ℕ)] 100).1 = [] ∧
    (processBatch 0 [(0 : ℕ)] 100).2 = false := by
  decide

/-- C6, amended: for every finite input sequence and every POSITIVE
batch size, the batch processor (given one frame per slice, `fuel =
items.length` frames are always enough) completes having visited
exactly the input sequence in input order, each item exactly once; the
per-frame slices all have length at most the batch size and every slice
but the last has length exactly the batch size; and when the input is
longer than one batch, the first (synchronous) run does not finish the
sequence — the next slice is deferred to a later frame. -/
theorem processBatch_amended (batchSize : Nat) (items : List α) (hB : 0 < batchSize) :
    processBatch batchSize items items.length = (items, true) ∧
    (processBatchChunks batchSize items 0 items.length).flatten = items ∧
    (∀ c ∈ processBatchChunks batchSize items 0 items.length, c.length ≤ batchSize) ∧
    (∀ c ∈ (processBatchChunks batchSize items 0 items.length).dropLast,
      c.length = batchSize) ∧
    (batchSize < items.length → (processBatch batchSize items 1).2 = false) := by
  rcases hitems : items with _ | ⟨x, xs⟩
  · refine ⟨rfl, rfl, ?_, ?_, ?_⟩
    · intro c hcm
      simp [processBatchChunks] at hcm
    · intro c hcm
      simp [processBatchChunks] at hcm
    · intro h
      simp at h
  · rw [← hitems]
    have hpos : 0 < items.length := by
      rw [hitems]
      simp
    have hfuel : items.length ≤ 0 + items.length * batchSize := by
      have := Nat.le_mul_of_pos_right items.length hB
      omega
    obtain ⟨hj, _, hlen, hdl⟩ :=
      processBatchChunks_spec hB items items.length 0 hpos hfuel
    refine ⟨?_, ?_, hlen, hdl, ?_⟩
    · unfold processBatch
      rw [if_pos hpos, processBatchFrom_complete hB items items.length 0 hpos hfuel,
        List.drop_zero]
    · rw [hj, List.drop_zero]
    · intro hlong
      unfold processBatch
      rw [if_pos hpos]
      simp only [processBatchFrom]
      rw [if_pos (by omega : 0 + batchSize < items.length)]

/-- C6, witness: the amended theorem applied to batch size 3 and a
seven-element list (slices of 3, 3, 1). -/
theorem processBatch_amended_witness :
    (0 : Nat) < 3 ∧
    processBatch 3 [1, 2, 3, 4, 5, 6, 7] (List.length [1, 2, 3, 4, 5, 6, 7]) =
      ([1, 2, 3, 4, 5, 6, 7], true) ∧
    (processBatchChunks 3 ([1, 2, 3, 4, 5, 6, 7] : List ℕ) 0 7).flatten =
      [1, 2, 3, 4, 5, 6, 7] :=
  ⟨by decide,
   (processBatch_amended 3 [1, 2, 3, 4, 5, 6, 7] (by decide)).1,
   (processBatch_amended 3 ([1, 2, 3, 4, 5, 6, 7] : List ℕ) (by decide)).2.1⟩

theorem openNav_tlCreated (st : MenuState) : (openNav st).tlCreated = st.tlCreated := by
  unfold openNav
  split <;> rfl

theorem closeNav_tlCreated (st : MenuState) : (closeNav st).tlCreated = st.tlCreated := by
  unfold closeNav
  split <;> rfl

theorem toggleBody_tlCreated (st : MenuState) : (toggleBody st).tlCreated = st.tlCreated := by
  unfold toggleBody
  split
  · exact closeNav_tlCreated st
  · exact openNav_tlCreated st

theorem menuStep_tlCreated (st : MenuState) (e : MenuEvent) :
    (menuStep st e).tlCreated = st.tlCreated := by
  cases e with
  | click t =>
    simp only [menuStep]
    split <;> rfl
  | frame t =>
    simp only [menuStep]
    have hgen : ∀ (l : List Unit) (acc : MenuState),
        (l.foldl (fun acc2 _ =>
          if 1000 / 30 ≤ t - acc2.lastTime then { toggleBody acc2 with lastTime := t }
          else acc2) acc).tlCreated = acc.tlCreated := by
      intro l
      induction l with
      | nil =>
        intro acc
        rfl
      | cons u us ih =>
        intro acc
        rw [List.foldl_cons, ih]
        split
        · exact toggleBody_tlCreated acc
        · rfl
    exact hgen st.pending _
  | escape =>
    simp only [menuStep]
    split
    · exact closeNav_tlCreated st
    · rfl

theorem menuRun_tlCreated (events : List MenuEvent) : (menuRun events).tlCreated = 1 := by
  have hgen : ∀ (evs : List MenuEvent) (st : MenuState),
      (evs.foldl menuStep st).tlCreated = st.tlCreated := by
    intro evs
    induction evs with
    | nil =>
      intro st
      rfl
    | cons e es ih =>
      intro st
      rw [List.foldl_cons, ih, menuStep_tlCreated]
  exact hgen events menuInit

/-- Correspondence between the `data-nav` attribute and the closure flag
`isOpen`. -/
def MenuInv (st : MenuState) : Prop :=
  st.dataNav = "open" ↔ st.isOpen = true

theorem openNav_inv {st : MenuState} (h : MenuInv st) : MenuInv (openNav st) := by
  unfold openNav
  split
  · exact h
  · simp [MenuInv]

theorem closeNav_inv {st : MenuState} (h : MenuInv st) : MenuInv (closeNav st) := by
  unfold closeNav
  split
  · exact h
  · simp [MenuInv]

theorem toggleBody_inv {st : MenuState} (h : MenuInv st) : MenuInv (toggleBody st) := by
  unfold toggleBody
  split
  · exact closeNav_inv h
  · exact openNav_inv h

theorem menuStep_inv {st : MenuState} (h : MenuInv st) (e : MenuEvent) :
    MenuInv (menuStep st e) := by
  cases e with
  | click t =>
    simp only [menuStep]
    split
    · exact h
    · exact h
  | frame t =>
    simp only [menuStep]
    have hgen : ∀ (l : List Unit) (acc : MenuState), MenuInv acc →
        MenuInv (l.foldl (fun acc2 _ =>
          if 1000 / 30 ≤ t - acc2.lastTime then { toggleBody acc2 with lastTime := t }
          else acc2) acc) := by
      intro l
      induction l with
      | nil =>
        intro acc hacc
        exact hacc
      | cons u us ih =>
        intro acc hacc
        rw [List.foldl_cons]
        refine ih _ ?_
        split
        · exact toggleBody_inv hacc
        · exact hacc
    exact hgen st.pending _ h
  | escape =>
    simp only [menuStep]
    split
    · exact closeNav_inv h
    · exact h

theorem menuRun_inv (events : List MenuEvent) : MenuInv (menuRun events) := by
  have hgen : ∀ (evs : List MenuEvent) (st : MenuState), MenuInv st →
      MenuInv (evs.foldl menuStep st) := by
    intro evs
    induction evs with
    | nil =>
      intro st h
      exact h
    | cons e es ih =>
      intro st h
      exact ih _ (menuStep_inv h e)
  refine hgen events menuInit ?_
  simp [MenuInv, menuInit]

/-- C10: over any sequence of toggle clicks, animation frames and Escape
keydowns from the initial closed state, the nav wrapper's `data-nav`
attribute equals "open" exactly when the closure flag `isOpen` is true;
and an Escape keydown while the menu is closed is a strict no-op (the
whole state, including the shared transition timeline, is unchanged). -/
theorem menu_data_nav_invariant (events : List MenuEvent) :
    ((menuRun events).dataNav = "open" ↔ (menuRun events).isOpen = true) ∧
    ((menuRun events).isOpen = false →
      menuStep (menuRun events) .escape = menuRun events) := by
  refine ⟨menuRun_inv events, fun h => ?_⟩
  simp only [menuStep]
  rw [h]
  simp

/-- C10, witness: the theorem applied to the empty trace and to a trace
with one executed toggle. -/
theorem menu_data_nav_invariant_witness :
    (menuRun []).isOpen = false ∧
    menuStep (menuRun []) .escape = menuRun [] ∧
    ((menuRun [.click 0, .frame 40]).dataNav = "open" ↔
      (menuRun [.click 0, .frame 40]).isOpen = true) :=
  ⟨rfl, (menu_data_nav_invariant []).2 rfl, (menu_data_nav_invariant [.click 0, .frame 40]).1⟩

/-- C5, counterexample: two toggle invocations in rapid succession — a
click at t = 0 ms and a click at t = 10 ms, both before the first
animation frame at t = 40 ms and therefore long before the first
transition's animation (several hundred ms) could finish.  The second
invocation is discarded by the 30 fps rAF throttle, the frame executes a
single toggle, and the menu ends in the OPEN state, contradicting the
claim that it ends closed. -/
theorem menu_rapid_toggle_counterexample :
    (menuRun [.click 0, .click 10, .frame 40]).isOpen = true ∧
    (menuRun [.click 0, .click 10, .frame 40]).dataNav = "open" ∧
    (menuRun [.click 0, .click 10, .frame 40]).btnOpened = true := by
  have hrun : menuRun [.click 0, .click 10, .frame 40] =
      { isOpen := true, dataNav := "open", btnOpened := true,
        ariaLabel := "Close menu", tlContent := openSteps, tlCreated := 1,
        pending := [], lastTime := 40 } := by
    show menuStep { menuInit with pending := [()] } (.frame 40) = _
    simp only [menuStep, List.foldl]
    rw [if_pos (show (1000 : ℚ) / 30 ≤ 40 - menuInit.lastTime by
      simp only [menuInit]
      norm_num)]
    rfl
  rw [hrun]
  exact ⟨rfl, rfl, rfl⟩

/-- C5, amended: a toggle invocation arriving while another is pending,
or within 1000/30 ms of the last executed toggle, is dropped by the rAF
throttle (see the C4 theorems).  When both toggle invocations are
actually executed — each click is followed by an animation frame, the
first at least 1000/30 ms after time 0 and the second at least 1000/30
ms after the first — the menu ends in the closed state (data-nav
attribute, button class, ARIA label, close transition on the timeline),
and throughout any event sequence exactly one menu transition timeline
exists (the one created by initMenu; each transition clears and rebuilds
it rather than constructing a new one). -/
theorem menu_toggle_amended (t1 f1 t2 f2 : ℚ)
    (h1 : 1000 / 30 ≤ f1) (h2 : 1000 / 30 ≤ f2 - f1) :
    ((menuRun [.click t1, .frame f1, .click t2, .frame f2]).isOpen = false ∧
     (menuRun [.click t1, .frame f1, .click t2, .frame f2]).dataNav = "closed" ∧
     (menuRun [.click t1, .frame f1, .click t2, .frame f2]).btnOpened = false ∧
     (menuRun [.click t1, .frame f1, .click t2, .frame f2]).ariaLabel = "Open menu" ∧
     (menuRun [.click t1, .frame f1, .click t2, .frame f2]).tlContent = closeSteps) ∧
    (∀ events : List MenuEvent, (menuRun events).tlCreated = 1) := by
  refine ⟨?_, menuRun_tlCreated⟩
  have s2 : menuStep { menuInit with pending := [()] } (.frame f1) =
      { isOpen := true, dataNav := "open", btnOpened := true,
        ariaLabel := "Close menu", tlContent := openSteps, tlCreated := 1,
        pending := [], lastTime := f1 } := by
    simp only [menuStep, List.foldl]
    rw [if_pos (show (1000 : ℚ) / 30 ≤ f1 - menuInit.lastTime by
      simp only [menuInit]
      simpa using h1)]
    rfl
  have s4 : menuStep
      { isOpen := true, dataNav := "open", btnOpened := true,
        ariaLabel := "Close menu", tlContent := openSteps, tlCreated := 1,
        pending := [()], lastTime := f1 } (.frame f2) =
      { isOpen := false, dataNav := "closed", btnOpened := false,
        ariaLabel := "Open menu", tlContent := closeSteps, tlCreated := 1,
        pending := [], lastTime := f2 } := by
    simp only [menuStep, List.foldl]
    rw [if_pos (show (1000 : ℚ) / 30 ≤ f2 - f1 from h2)]
    rfl
  have hrun : menuRun [.click t1, .frame f1, .click t2, .frame f2] =
      { isOpen := false, dataNav := "closed", btnOpened := false,
        ariaLabel := "Open menu", tlContent := closeSteps, tlCreated := 1,
        pending := [], lastTime := f2 } := by
    show menuStep (menuStep (menuStep { menuInit with pending := [()] } (.frame f1))
      (.click t2)) (.frame f2) = _
    rw [s2]
    have s3 : menuStep
        { isOpen := true, dataNav := "open", btnOpened := true,
          ariaLabel := "Close menu", tlContent := openSteps, tlCreated := 1,
          pending := [], lastTime := f1 } (.click t2) =
        { isOpen := true, dataNav := "open", btnOpened := true,
          ariaLabel := "Close menu", tlContent := openSteps, tlCreated := 1,
          pending := [()], lastTime := f1 } := rfl
    rw [s3, s4]
  rw [hrun]
  exact ⟨rfl, rfl, rfl, rfl, rfl⟩

/-- C5, witness: the amended theorem applied to clicks at 0 and 50 ms
with frames at 40 and 80 ms. -/
theorem menu_toggle_amended_witness :
    (menuRun [.click 0, .frame 40, .click 50, .frame 80]).isOpen = false ∧
    (menuRun [.click 0, .frame 40, .click 50, .frame 80]).dataNav = "closed" ∧
    (menuRun [.click 0, .frame 40, .click 50, .frame 80]).tlCreated = 1 :=
  ⟨(menu_toggle_amended 0 40 50 80 (by norm_num) (by norm_num)).1.1,
   (menu_toggle_amended 0 40 50 80 (by norm_num) (by norm_num)).1.2.1,
   (menu_toggle_amended 0 40 50 80 (by norm_num) (by norm_num)).2 _⟩

end Jamboree
